import Mathlib

/-!
Shallow embedding of the dropdown controller in
`src/src/components/dropdown/index.ts` (class `Dropdown` and the bulk
initializer `initDropdowns`).

The controller's observable state is: the target element's class token set
(`classList`), the `_visible` flag, the set of click-capture listeners
registered on `document.body` (each registration of the closure created in
`_setupClickOutsideListener` is modelled by a fresh numeric identifier, so
listener identity is tracked exactly), and the field
`_clickOutsideEventListener` holding the most recently created closure.
Side effects (class mutations, popper `setOptions`/`update`, listener
registration, `onShow`/`onHide` callbacks) are appended to an event log in
the order the source performs them.
-/

/-- One observable side effect of the controller, in source order. -/
inductive Effect where
  | classRemove (token : String)
  | classAdd (token : String)
  | popperSetListeners (enabled : Bool)
  | addClickOutside (listenerId : Nat)
  | removeClickOutside (listenerId : Option Nat)
  | popperUpdate
  | onShowCb
  | onHideCb
deriving DecidableEq

/-- The mutable state a `Dropdown` instance owns, plus the document-level
listener registrations it touches and the log of effects performed. -/
structure DropdownState where
  /-- the target element's `classList`, as the set of class tokens -/
  targetClasses : Finset String
  /-- `this._visible` -/
  visible : Bool
  /-- identities of the click-capture listeners currently registered on
  `document.body` by this instance, most recent first -/
  registered : List Nat
  /-- `this._clickOutsideEventListener`: the closure most recently created by
  `_setupClickOutsideListener` (`none` before the first `show()`) -/
  current : Option Nat
  /-- supply of fresh closure identities -/
  nextId : Nat
  /-- effects performed so far, oldest first -/
  log : List Effect

/-- `el.classList.add(token)`: inserts the token into the class set. -/
def classListAdd (cl : Finset String) (token : String) : Finset String :=
  insert token cl

/-- `el.classList.remove(token)`: erases the token from the class set. -/
def classListRemove (cl : Finset String) (token : String) : Finset String :=
  cl.erase token

namespace Dropdown

/-- `_setupClickOutsideListener()`: creates a fresh closure, stores it in
`_clickOutsideEventListener` and registers it on `document.body` at the
capture phase. -/
def _setupClickOutsideListener (s : DropdownState) : DropdownState :=
  { s with
    current := some s.nextId
    registered := s.nextId :: s.registered
    nextId := s.nextId + 1
    log := s.log ++ [Effect.addClickOutside s.nextId] }

/-- `_removeClickOutsideListener()`: calls
`document.body.removeEventListener('click', this._clickOutsideEventListener,
true)`, which removes the first registration matching the stored closure and
is a no-op when the field is still unset or the closure is not registered. -/
def _removeClickOutsideListener (s : DropdownState) : DropdownState :=
  { s with
    registered :=
      match s.current with
      | none => s.registered
      | some i => s.registered.erase i
    log := s.log ++ [Effect.removeClickOutside s.current] }

/-- `show()`: class flip to visible, popper listeners on, outside-click
listener registration, popper update, `_visible = true`, `onShow`. -/
def «show» (s : DropdownState) : DropdownState :=
  let s1 := { s with
    targetClasses := classListAdd (classListRemove s.targetClasses "hidden") "block"
    log := s.log ++ [Effect.classRemove "hidden", Effect.classAdd "block"] }
  let s2 := { s1 with log := s1.log ++ [Effect.popperSetListeners true] }
  let s3 := _setupClickOutsideListener s2
  let s4 := { s3 with log := s3.log ++ [Effect.popperUpdate] }
  let s5 := { s4 with visible := true }
  { s5 with log := s5.log ++ [Effect.onShowCb] }

/-- `hide()`: class flip to hidden, popper listeners off, `_visible = false`,
outside-click listener removal, `onHide`. -/
def hide (s : DropdownState) : DropdownState :=
  let s1 := { s with
    targetClasses := classListAdd (classListRemove s.targetClasses "block") "hidden"
    log := s.log ++ [Effect.classRemove "block", Effect.classAdd "hidden"] }
  let s2 := { s1 with log := s1.log ++ [Effect.popperSetListeners false] }
  let s3 := { s2 with visible := false }
  let s4 := _removeClickOutsideListener s3
  { s4 with log := s4.log ++ [Effect.onHideCb] }

/-- `toggle()`: `if (this._visible) this.hide(); else this.show();`. -/
def toggle (s : DropdownState) : DropdownState :=
  if s.visible then hide s else «show» s

/-- What the click-outside handler can observe about a dispatched click:
`ev.target === this._targetEl`, `this._targetEl.contains(ev.target)` and
`this._triggerEl.contains(ev.target)`. -/
structure ClickInfo where
  eqTarget : Bool
  inTarget : Bool
  inTrigger : Bool

/-- `_handleClickOutside(ev, targetEl)`: hides when the clicked node is not
the target element, not contained in it, not contained in the trigger
element, and the dropdown is visible; otherwise does nothing. -/
def _handleClickOutside (c : ClickInfo) (s : DropdownState) : DropdownState :=
  if !c.eqTarget && !c.inTarget && !c.inTrigger && s.visible then hide s else s

end Dropdown

/-- One public operation on the controller. -/
inductive Op where
  | opShow
  | opHide
  | opToggle
deriving DecidableEq

/-- Apply one public operation. -/
def step : Op → DropdownState → DropdownState
  | Op.opShow, s => Dropdown.«show» s
  | Op.opHide, s => Dropdown.hide s
  | Op.opToggle, s => Dropdown.toggle s

/-- Apply a sequence of public operations, first element first. -/
def run : List Op → DropdownState → DropdownState
  | [], s => s
  | op :: ops, s => run ops (step op s)

/-- The state right after construction: target element carrying the
`hidden` class and no `block` class, `_visible = false`, no outside-click
listener registered, `_clickOutsideEventListener` unset. -/
def init : DropdownState :=
  { targetClasses := {"hidden"}
    visible := false
    registered := []
    current := none
    nextId := 0
    log := [] }

/-- `true` when the operation sequence never invokes `show()` while the
controller is already visible (calls through `toggle()` never do). -/
def safeFrom : DropdownState → List Op → Bool
  | _, [] => true
  | s, op :: ops => (!(op == Op.opShow) || !s.visible) && safeFrom (step op s) ops

/-- Which element a constructor-time event listener is attached to. -/
inductive WireElem where
  | triggerEl
  | targetEl
deriving DecidableEq

/-- What a constructor-time event listener does when it fires:
`toggle()`, `show()`, or the 100ms-delayed hide that first checks whether
the complementary element is hovered. -/
inductive WireHandler where
  | handlerToggle
  | handlerShow
  | handlerDelayedHide
deriving DecidableEq

/-- One event listener attached by `_init`. -/
structure Wire where
  elem : WireElem
  event : String
  handler : WireHandler
deriving DecidableEq

/-- `_getTriggerEvents()`: the `(showEvents, hideEvents)` pair for the
configured trigger type; the `default` branch of the switch returns the
click-mode pair. -/
def _getTriggerEvents (triggerType : String) : List String × List String :=
  if triggerType = "hover" then (["mouseenter", "click"], ["mouseleave"])
  else if triggerType = "click" then (["click"], [])
  else (["click"], [])

/-- `_init()`: the event listeners attached at construction, in attachment
order. The two wiring blocks are guarded by `triggerType === 'click'` and
`triggerType === 'hover'` exactly as in the source; when no trigger element
was supplied nothing is wired. -/
def _init (triggerType : String) (hasTriggerEl : Bool) : List Wire :=
  if hasTriggerEl then
    let triggerEvents := _getTriggerEvents triggerType
    (if triggerType = "click" then
      triggerEvents.1.map (fun ev =>
        { elem := WireElem.triggerEl, event := ev, handler := WireHandler.handlerToggle })
    else []) ++
    (if triggerType = "hover" then
      (triggerEvents.1.map (fun ev =>
        [{ elem := WireElem.triggerEl, event := ev,
           handler := if ev = "click" then WireHandler.handlerToggle else WireHandler.handlerShow },
         { elem := WireElem.targetEl, event := ev, handler := WireHandler.handlerShow }])).flatten ++
      (triggerEvents.2.map (fun ev =>
        [{ elem := WireElem.triggerEl, event := ev, handler := WireHandler.handlerDelayedHide },
         { elem := WireElem.targetEl, event := ev, handler := WireHandler.handlerDelayedHide }])).flatten
    else [])
  else []

/-- JavaScript whitespace skipped by `parseInt` (space, tab, newline,
carriage return, vertical tab, form feed). -/
def isJsWhitespace (c : Char) : Bool :=
  c.toNat = 32 || c = '\t' || c = '\n' || c = '\r' || c.toNat = 11 || c.toNat = 12

/-- Hexadecimal digit as `parseInt` accepts after a `0x`/`0X` prefix. -/
def isHexDigitJs (c : Char) : Bool :=
  c.isDigit || ('a' ≤ c && c ≤ 'f') || ('A' ≤ c && c ≤ 'F')

/-- Numeric value of a hexadecimal digit character. -/
def hexDigitVal (c : Char) : Nat :=
  if c.isDigit then c.toNat - 48
  else if 'a' ≤ c then c.toNat - 87
  else c.toNat - 55

/-- Value of a digit string in the given base, most significant first. -/
def digitsVal (base : Nat) (toVal : Char → Nat) (cs : List Char) : Nat :=
  cs.foldl (fun a c => a * base + toVal c) 0

/-- `parseInt` after sign handling: an `0x`/`0X` prefix switches to base 16,
otherwise the leading decimal digits are read; no digits means `NaN`
(`none`). Trailing non-digit characters are ignored. -/
def parseIntNoSign (cs : List Char) : Option Nat :=
  match cs with
  | '0' :: x :: rest =>
    if x = 'x' ∨ x = 'X' then
      let hs := rest.takeWhile isHexDigitJs
      if hs.isEmpty then none else some (digitsVal 16 hexDigitVal hs)
    else
      let ds := ('0' :: x :: rest).takeWhile Char.isDigit
      if ds.isEmpty then none else some (digitsVal 10 (fun c => c.toNat - 48) ds)
  | _ =>
    let ds := cs.takeWhile Char.isDigit
    if ds.isEmpty then none else some (digitsVal 10 (fun c => c.toNat - 48) ds)

/-- JavaScript `parseInt(s)` with the default radix: skip leading
whitespace, read an optional sign, then digits; `none` models `NaN`. -/
def parseIntJs (s : String) : Option Int :=
  let cs := s.data.dropWhile isJsWhitespace
  match cs with
  | '-' :: rest => (parseIntNoSign rest).map (fun n => -(n : Int))
  | '+' :: rest => (parseIntNoSign rest).map (fun n => (n : Int))
  | _ => (parseIntNoSign cs).map (fun n => (n : Int))

/-- The options object a constructed controller ends up with. A JavaScript
number is modelled as `Option Int`, `none` standing for `NaN`. -/
structure DropdownOptions where
  placement : String
  triggerType : String
  offsetSkidding : Option Int
  offsetDistance : Option Int
deriving DecidableEq

/-- The module-level `Default` options object. -/
def DefaultOptions : DropdownOptions :=
  { placement := "bottom"
    triggerType := "click"
    offsetSkidding := some 0
    offsetDistance := some 10 }

/-- A JavaScript conditional `attr ? attr : dflt` on a `getAttribute`
result: `null` and the empty string are falsy. -/
def resolveStringAttr (attr : Option String) (dflt : String) : String :=
  match attr with
  | none => dflt
  | some s => if s = "" then dflt else s

/-- A JavaScript conditional `attr ? parseInt(attr) : dflt` on a
`getAttribute` result: `null` and the empty string are falsy, any other
string is handed to `parseInt` (which may produce `NaN`, modelled `none`). -/
def resolveOffsetAttr (attr : Option String) (dflt : Option Int) : Option Int :=
  match attr with
  | none => dflt
  | some s => if s = "" then dflt else parseIntJs s

/-- One element carrying `data-dropdown-toggle`, with the raw attribute
values `initDropdowns` reads from it. -/
structure TriggerSpec where
  dropdownId : String
  placementAttr : Option String
  offsetSkiddingAttr : Option String
  offsetDistanceAttr : Option String
  triggerTypeAttr : Option String

/-- A controller constructed by `initDropdowns`. -/
structure BuiltDropdown where
  targetId : String
  options : DropdownOptions
deriving DecidableEq

/-- The options object `initDropdowns` passes to the constructor. -/
def buildOptions (t : TriggerSpec) : DropdownOptions :=
  { placement := resolveStringAttr t.placementAttr DefaultOptions.placement
    triggerType := resolveStringAttr t.triggerTypeAttr DefaultOptions.triggerType
    offsetSkidding := resolveOffsetAttr t.offsetSkiddingAttr DefaultOptions.offsetSkidding
    offsetDistance := resolveOffsetAttr t.offsetDistanceAttr DefaultOptions.offsetDistance }

/-- The `console.error` message for a dangling target reference. -/
def errorMessage (dropdownId : String) : String :=
  "The dropdown element with id \"" ++ dropdownId ++
    "\" does not exist. Please check the data-dropdown-toggle attribute."

/-- `initDropdowns()`: walks the marked trigger elements in document order;
a trigger whose referenced id resolves (`document.getElementById`) yields a
controller, one whose id does not resolve yields one `console.error`
diagnostic. Returns (controllers, diagnostics), each in processing order. -/
def initDropdowns : List TriggerSpec → List String → List BuiltDropdown × List String
  | [], _ => ([], [])
  | t :: ts, ids =>
    let rest := initDropdowns ts ids
    if ids.contains t.dropdownId then
      ({ targetId := t.dropdownId, options := buildOptions t } :: rest.1, rest.2)
    else
      (rest.1, errorMessage t.dropdownId :: rest.2)

/-- A valid trigger for the bulk-initializer scenario: references id
`menu`, no optional attributes. -/
def validTrigger : TriggerSpec :=
  { dropdownId := "menu"
    placementAttr := none
    offsetSkiddingAttr := none
    offsetDistanceAttr := none
    triggerTypeAttr := none }

/-- A dangling trigger for the bulk-initializer scenario: references id
`ghost`, which resolves to no element. -/
def danglingTrigger : TriggerSpec :=
  { dropdownId := "ghost"
    placementAttr := none
    offsetSkiddingAttr := none
    offsetDistanceAttr := none
    triggerTypeAttr := none }

namespace Dropdown

theorem show_visible (s : DropdownState) : («show» s).visible = true := rfl

theorem show_targetClasses (s : DropdownState) :
    («show» s).targetClasses = insert "block" (s.targetClasses.erase "hidden") := rfl

theorem show_registered (s : DropdownState) :
    («show» s).registered = s.nextId :: s.registered := rfl

theorem show_current (s : DropdownState) : («show» s).current = some s.nextId := rfl

theorem show_log (s : DropdownState) :
    («show» s).log = s.log ++
      [Effect.classRemove "hidden", Effect.classAdd "block", Effect.popperSetListeners true,
       Effect.addClickOutside s.nextId, Effect.popperUpdate, Effect.onShowCb] := by
  simp [«show», _setupClickOutsideListener]

theorem hide_visible (s : DropdownState) : (hide s).visible = false := rfl

theorem hide_targetClasses (s : DropdownState) :
    (hide s).targetClasses = insert "hidden" (s.targetClasses.erase "block") := rfl

theorem hide_current (s : DropdownState) : (hide s).current = s.current := rfl

theorem hide_registered (s : DropdownState) :
    (hide s).registered =
      match s.current with
      | none => s.registered
      | some i => s.registered.erase i := rfl

theorem hide_log (s : DropdownState) :
    (hide s).log = s.log ++
      [Effect.classRemove "block", Effect.classAdd "hidden", Effect.popperSetListeners false,
       Effect.removeClickOutside s.current, Effect.onHideCb] := by
  simp [hide, _removeClickOutsideListener]

theorem hide_ne_self (s : DropdownState) : hide s ≠ s := by
  intro h
  have hlen := congrArg (fun st => st.log.length) h
  simp [hide_log] at hlen

end Dropdown

/-- A reachable hidden-shaped state: invisible, hidden class on, block class
off, no outside-click listener registered. -/
def GoodHidden (s : DropdownState) : Prop :=
  s.visible = false ∧ "hidden" ∈ s.targetClasses ∧ "block" ∉ s.targetClasses ∧
    s.registered = []

/-- A reachable visible-shaped state: visible, block class on, hidden class
off, exactly the stored outside-click listener registered. -/
def GoodVisible (s : DropdownState) : Prop :=
  s.visible = true ∧ "block" ∈ s.targetClasses ∧ "hidden" ∉ s.targetClasses ∧
    ∃ i, s.current = some i ∧ s.registered = [i]

/-- Every state reachable without calling `show()` while visible is of one
of the two shapes. -/
def GoodState (s : DropdownState) : Prop := GoodHidden s ∨ GoodVisible s

theorem goodVisible_show (s : DropdownState) (h : GoodHidden s) :
    GoodVisible (Dropdown.«show» s) := by
  obtain ⟨hv, hh, hb, hr⟩ := h
  have hne : ("hidden" : String) ≠ "block" := by decide
  refine ⟨rfl, ?_, ?_, s.nextId, rfl, ?_⟩
  · rw [Dropdown.show_targetClasses]; exact Finset.mem_insert_self _ _
  · rw [Dropdown.show_targetClasses]
    simp [Finset.mem_insert, Finset.mem_erase, hne]
  · rw [Dropdown.show_registered, hr]

theorem goodHidden_hide_of_visible (s : DropdownState) (h : GoodVisible s) :
    GoodHidden (Dropdown.hide s) := by
  obtain ⟨hv, hb, hh, i, hc, hr⟩ := h
  have hne : ("block" : String) ≠ "hidden" := by decide
  refine ⟨rfl, ?_, ?_, ?_⟩
  · rw [Dropdown.hide_targetClasses]; exact Finset.mem_insert_self _ _
  · rw [Dropdown.hide_targetClasses]
    simp [Finset.mem_insert, Finset.mem_erase, hne]
  · simp [Dropdown.hide_registered, hc, hr]

theorem goodHidden_hide_of_hidden (s : DropdownState) (h : GoodHidden s) :
    GoodHidden (Dropdown.hide s) := by
  obtain ⟨hv, hh, hb, hr⟩ := h
  have hne : ("block" : String) ≠ "hidden" := by decide
  refine ⟨rfl, ?_, ?_, ?_⟩
  · rw [Dropdown.hide_targetClasses]; exact Finset.mem_insert_self _ _
  · rw [Dropdown.hide_targetClasses]
    simp [Finset.mem_insert, Finset.mem_erase, hne]
  · rw [Dropdown.hide_registered, hr]
    cases s.current <;> simp

theorem goodState_step (op : Op) (s : DropdownState) (hg : GoodState s)
    (hsafe : op = Op.opShow → s.visible = false) : GoodState (step op s) := by
  cases op with
  | opShow =>
    have hv : s.visible = false := hsafe rfl
    rcases hg with hh | hvis
    · exact Or.inr (goodVisible_show s hh)
    · rw [hvis.1] at hv; cases hv
  | opHide =>
    rcases hg with hh | hvis
    · exact Or.inl (goodHidden_hide_of_hidden s hh)
    · exact Or.inl (goodHidden_hide_of_visible s hvis)
  | opToggle =>
    rcases hg with hh | hvis
    · have heq : step Op.opToggle s = Dropdown.«show» s := by
        simp [step, Dropdown.toggle, hh.1]
      rw [heq]; exact Or.inr (goodVisible_show s hh)
    · have heq : step Op.opToggle s = Dropdown.hide s := by
        simp [step, Dropdown.toggle, hvis.1]
      rw [heq]; exact Or.inl (goodHidden_hide_of_visible s hvis)

theorem goodState_run (ops : List Op) : ∀ s : DropdownState, GoodState s →
    safeFrom s ops = true → GoodState (run ops s) := by
  induction ops with
  | nil => intro s hg _; exact hg
  | cons op ops ih =>
    intro s hg hsafe
    simp only [safeFrom, Bool.and_eq_true] at hsafe
    obtain ⟨hguard, hrest⟩ := hsafe
    have hsafe1 : op = Op.opShow → s.visible = false := by
      intro hop; subst hop
      simpa using hguard
    exact ih (step op s) (goodState_step op s hg hsafe1) hrest

theorem goodState_init : GoodState init := by
  refine Or.inl ⟨rfl, ?_, ?_, rfl⟩ <;> decide

/-- Claim C1 (amended): for every controller state reachable from the
initial hidden state by a sequence of `show()`, `hide()` and `toggle()`
calls in which `show()` is never invoked while already visible, the state
is visible iff the target element carries the `block` class, lacks the
`hidden` class and an outside-click listener is registered on the document;
and it is hidden iff the reverse class state holds and no outside-click
listener is registered. -/
theorem C1_visibility_invariant (ops : List Op) (h : safeFrom init ops = true) :
    ((run ops init).visible = true ↔
      ("block" ∈ (run ops init).targetClasses ∧
        "hidden" ∉ (run ops init).targetClasses ∧
        (run ops init).registered ≠ [])) ∧
    ((run ops init).visible = false ↔
      ("hidden" ∈ (run ops init).targetClasses ∧
        "block" ∉ (run ops init).targetClasses ∧
        (run ops init).registered = [])) := by
  have hg := goodState_run ops init goodState_init h
  rcases hg with hh | hv
  · obtain ⟨h1, h2, h3, h4⟩ := hh
    constructor
    · constructor
      · intro hvis; rw [h1] at hvis; simp at hvis
      · rintro ⟨hb, -, -⟩; exact absurd hb h3
    · constructor
      · intro _; exact ⟨h2, h3, h4⟩
      · intro _; exact h1
  · obtain ⟨h1, h2, h3, i, hc, hr⟩ := hv
    constructor
    · constructor
      · intro _; refine ⟨h2, h3, ?_⟩; rw [hr]; simp
      · intro _; exact h1
    · constructor
      · intro hvis; rw [h1] at hvis; simp at hvis
      · rintro ⟨hhm, -, -⟩; exact absurd hhm h3

/-- Claim C1, as stated, fails: after `show(); show(); hide()` the
controller is hidden with hidden-shaped classes, yet the first
outside-click listener (leaked by the double registration) is still
registered on the document. -/
theorem C1_counterexample :
    (run [Op.opShow, Op.opShow, Op.opHide] init).visible = false ∧
    "hidden" ∈ (run [Op.opShow, Op.opShow, Op.opHide] init).targetClasses ∧
    "block" ∉ (run [Op.opShow, Op.opShow, Op.opHide] init).targetClasses ∧
    (run [Op.opShow, Op.opShow, Op.opHide] init).registered ≠ [] := by decide

/-- Claim C1, amended theorem instantiated at the one-`toggle()` sequence. -/
theorem C1_visibility_invariant_witness :
    (run [Op.opToggle] init).visible = true ↔
      ("block" ∈ (run [Op.opToggle] init).targetClasses ∧
        "hidden" ∉ (run [Op.opToggle] init).targetClasses ∧
        (run [Op.opToggle] init).registered ≠ []) :=
  (C1_visibility_invariant [Op.opToggle] (by decide)).1

/-- The visibility flag after one `toggle()` is the negation of the flag
before it. -/
theorem toggle_flips (s : DropdownState) :
    (step Op.opToggle s).visible = !s.visible := by
  cases h : s.visible <;>
    simp [step, Dropdown.toggle, h, Dropdown.hide_visible, Dropdown.show_visible]

/-- The visibility flag after `n` `toggle()` calls is the initial flag
xor-ed with the parity of `n`. -/
theorem run_replicate_toggle (n : Nat) : ∀ s : DropdownState,
    (run (List.replicate n Op.opToggle) s).visible =
      Bool.xor (n % 2 == 1) s.visible := by
  induction n with
  | zero => intro s; simp [run]
  | succ n ih =>
    intro s
    rw [List.replicate_succ, run, ih (step Op.opToggle s), toggle_flips s]
    rcases Nat.mod_two_eq_zero_or_one n with h | h
    · have h2 : (n + 1) % 2 = 1 := by omega
      rw [h, h2]
      cases hv : s.visible <;> rfl
    · have h2 : (n + 1) % 2 = 0 := by omega
      rw [h, h2]
      cases hv : s.visible <;> rfl

/-- Claim C2: starting from the initial hidden state, after exactly `n`
`toggle()` calls the controller is visible iff `n` is odd. -/
theorem C2_toggle_parity (n : ℕ) :
    (run (List.replicate n Op.opToggle) init).visible = true ↔ Odd n := by
  rw [run_replicate_toggle n init]
  have hinit : init.visible = false := rfl
  rw [hinit, Bool.xor_false]
  simp [Nat.odd_iff, beq_iff_eq]

/-- Claim C3: a click dispatched to the installed outside-click handler
calls `hide()` exactly when the clicked node is not the target element, is
not contained in the target element, is not contained in the trigger
element, and the controller is currently visible; in every other case the
whole state (classes, flag, listener registrations, effect log) is left
unchanged. -/
theorem C3_click_outside_dismissal (c : Dropdown.ClickInfo) (s : DropdownState) :
    (Dropdown._handleClickOutside c s = Dropdown.hide s ↔
      (!c.eqTarget && !c.inTarget && !c.inTrigger && s.visible) = true) ∧
    (Dropdown._handleClickOutside c s = s ↔
      (!c.eqTarget && !c.inTarget && !c.inTrigger && s.visible) = false) := by
  have hne : Dropdown.hide s ≠ s := Dropdown.hide_ne_self s
  cases hcond : (!c.eqTarget && !c.inTarget && !c.inTrigger && s.visible) <;>
    simp [Dropdown._handleClickOutside, hcond, hne, Ne.symm hne]

/-- Claim C4 (code bug): for a trigger type that is neither `click` nor
`hover` (here `focus`), `_init` attaches no event listeners at all — both
wiring blocks are gated on the exact values `click` and `hover` — even
though the `default` branch of `_getTriggerEvents` produces the click-mode
event set; click mode itself wires the single click-to-toggle listener. -/
theorem C4_unrecognized_trigger_unwired :
    _init "focus" true = [] ∧
    _getTriggerEvents "focus" = (["click"], []) ∧
    _init "click" true =
      [{ elem := WireElem.triggerEl, event := "click",
         handler := WireHandler.handlerToggle }] := by decide

/-- Claim C5: every `show()` call appends exactly these effects, in this
order: remove `hidden` class, add `block` class, enable the popper's event
listeners, register the outside-click listener, request a position update,
invoke `onShow` — and `onShow` is invoked exactly once per call. -/
theorem C5_show_effect_order (s : DropdownState) :
    (Dropdown.«show» s).log = s.log ++
      [Effect.classRemove "hidden", Effect.classAdd "block",
       Effect.popperSetListeners true, Effect.addClickOutside s.nextId,
       Effect.popperUpdate, Effect.onShowCb] ∧
    (Dropdown.«show» s).log.count Effect.onShowCb =
      s.log.count Effect.onShowCb + 1 := by
  refine ⟨Dropdown.show_log s, ?_⟩
  rw [Dropdown.show_log s, List.count_append]
  have h1 : List.count Effect.onShowCb
      [Effect.classRemove "hidden", Effect.classAdd "block",
       Effect.popperSetListeners true, Effect.addClickOutside s.nextId,
       Effect.popperUpdate, Effect.onShowCb] = 1 := rfl
  rw [h1]

/-- Claim C6 (amended): when the target element initially carries the
`hidden` class and not the `block` class, `show()` immediately followed by
`hide()` restores both the class state and the set of registered
outside-click listeners. -/
theorem C6_show_hide_roundtrip (s : DropdownState)
    (h1 : "hidden" ∈ s.targetClasses) (h2 : "block" ∉ s.targetClasses) :
    (Dropdown.hide (Dropdown.«show» s)).targetClasses = s.targetClasses ∧
    (Dropdown.hide (Dropdown.«show» s)).registered = s.registered := by
  constructor
  · rw [Dropdown.hide_targetClasses, Dropdown.show_targetClasses]
    have hb : "block" ∉ s.targetClasses.erase "hidden" :=
      fun hmem => h2 (Finset.mem_of_mem_erase hmem)
    rw [Finset.erase_insert hb, Finset.insert_erase h1]
  · simp [Dropdown.hide_registered, Dropdown.show_current,
      Dropdown.show_registered]

/-- A state whose target element carries no classes at all. -/
def bareState : DropdownState := { init with targetClasses := ∅ }

/-- Claim C6, as stated, fails: from a target element with no classes,
`show()` then `hide()` leaves the `hidden` class behind, so the class
state is not restored. -/
theorem C6_counterexample :
    ¬ ((Dropdown.hide (Dropdown.«show» bareState)).targetClasses =
        bareState.targetClasses ∧
      (Dropdown.hide (Dropdown.«show» bareState)).registered =
        bareState.registered) := by decide

/-- Claim C6, amended theorem at the initial state. -/
theorem C6_show_hide_roundtrip_witness :
    (Dropdown.hide (Dropdown.«show» init)).targetClasses = init.targetClasses ∧
    (Dropdown.hide (Dropdown.«show» init)).registered = init.registered :=
  C6_show_hide_roundtrip init (by decide) (by decide)

/-- Claim C7, as stated, fails: two consecutive `show()` calls leave two
outside-click listeners registered at once, and after a following `hide()`
the first listener (identity 0) stays registered while the stored reference
is the second one (identity 1), so it can never be removed. -/
theorem C7_counterexample :
    (run [Op.opShow, Op.opShow] init).registered = [1, 0] ∧
    (run [Op.opShow, Op.opShow, Op.opHide] init).registered = [0] ∧
    (run [Op.opShow, Op.opShow, Op.opHide] init).current = some 1 := by decide

/-- Claim C7 (amended): along every sequence of `show()`, `hide()` and
`toggle()` calls in which `show()` is never invoked while already visible,
at most one outside-click listener is registered at any time, none is
leaked (hidden states have none registered), and while visible the one
registered listener is exactly the reference stored for deregistration. -/
theorem C7_listener_discipline (ops : List Op) (h : safeFrom init ops = true) :
    (run ops init).registered.length ≤ 1 ∧
    ((run ops init).visible = false → (run ops init).registered = []) ∧
    ((run ops init).visible = true →
      ∃ i, (run ops init).current = some i ∧ (run ops init).registered = [i]) := by
  have hg := goodState_run ops init goodState_init h
  rcases hg with hh | hv
  · refine ⟨?_, fun _ => hh.2.2.2, fun hvis => ?_⟩
    · rw [hh.2.2.2]; simp
    · rw [hh.1] at hvis; simp at hvis
  · obtain ⟨h1, -, -, i, hc, hr⟩ := hv
    refine ⟨?_, fun hvis => ?_, fun _ => ⟨i, hc, hr⟩⟩
    · rw [hr]; simp
    · rw [h1] at hvis; simp at hvis

/-- Claim C7, amended theorem instantiated at a single `show()`. -/
theorem C7_listener_discipline_witness :
    (run [Op.opShow] init).registered.length ≤ 1 :=
  (C7_listener_discipline [Op.opShow] (by decide)).1

/-- Claim C8, as stated, fails: an offset attribute whose value is the
unparsable string `abc` yields `parseInt("abc") = NaN` (modelled `none`),
not the documented default `0`. -/
theorem C8_counterexample :
    resolveOffsetAttr (some "abc") DefaultOptions.offsetSkidding = none ∧
    DefaultOptions.offsetSkidding = some 0 := by decide

/-- Claim C8 (amended): the placement and trigger-type attributes fall back
to their defaults when absent or empty, and the offset attributes fall back
to their defaults when absent or empty; but a present, non-empty offset
attribute is handed to `parseInt`, so an unparsable value yields `NaN`
(`none`) rather than the default. -/
theorem C8_attribute_fallbacks (d : Option Int) (p : String) (s : String)
    (hs : s ≠ "") (hun : parseIntJs s = none) :
    resolveStringAttr none p = p ∧
    resolveStringAttr (some "") p = p ∧
    resolveOffsetAttr none d = d ∧
    resolveOffsetAttr (some "") d = d ∧
    resolveOffsetAttr (some s) d = none := by
  refine ⟨rfl, rfl, rfl, rfl, ?_⟩
  simp [resolveOffsetAttr, hs, hun]

/-- Claim C8, amended theorem instantiated at the string `abc` and the
default skidding offset. -/
theorem C8_attribute_fallbacks_witness :
    resolveOffsetAttr (some "abc") (some 0) = none :=
  (C8_attribute_fallbacks (some 0) "bottom" "abc" (by decide) (by decide)).2.2.2.2

/-- Claim C9: the bulk initializer constructs one controller per trigger
whose referenced id resolves and one diagnostic per trigger whose id does
not; in particular, given one valid and one dangling reference it
constructs exactly one controller and reports exactly one diagnostic. -/
theorem C9_bulk_initializer :
    (∀ (ts : List TriggerSpec) (ids : List String),
      (initDropdowns ts ids).1.length =
        (ts.filter (fun t => ids.contains t.dropdownId)).length ∧
      (initDropdowns ts ids).2.length =
        (ts.filter (fun t => !(ids.contains t.dropdownId))).length) ∧
    (initDropdowns [validTrigger, danglingTrigger] ["menu"]).1.length = 1 ∧
    (initDropdowns [validTrigger, danglingTrigger] ["menu"]).2 =
      [errorMessage "ghost"] := by
  refine ⟨?_, by decide, by decide⟩
  intro ts ids
  induction ts with
  | nil => exact ⟨rfl, rfl⟩
  | cons t ts ih =>
    by_cases hc : t.dropdownId ∈ ids <;>
      simp [initDropdowns, hc, List.filter_cons, ih.1, ih.2]

/-- Claim C10: `hide()` is not guarded against being called while already
hidden: from any hidden state it again applies the `hidden` class and
removes the `block` class, disables the popper's event listeners, attempts
removal of the stored outside-click listener, invokes `onHide` once more,
and leaves the controller hidden. -/
theorem C10_hide_unguarded (s : DropdownState) (h : s.visible = false) :
    (Dropdown.hide s).visible = false ∧
    "hidden" ∈ (Dropdown.hide s).targetClasses ∧
    "block" ∉ (Dropdown.hide s).targetClasses ∧
    (Dropdown.hide s).log = s.log ++
      [Effect.classRemove "block", Effect.classAdd "hidden",
       Effect.popperSetListeners false, Effect.removeClickOutside s.current,
       Effect.onHideCb] ∧
    (Dropdown.hide s).log.count Effect.onHideCb =
      s.log.count Effect.onHideCb + 1 := by
  have hne : ("block" : String) ≠ "hidden" := by decide
  refine ⟨rfl, ?_, ?_, Dropdown.hide_log s, ?_⟩
  · rw [Dropdown.hide_targetClasses]; exact Finset.mem_insert_self _ _
  · rw [Dropdown.hide_targetClasses]
    simp [Finset.mem_insert, Finset.mem_erase, hne]
  · rw [Dropdown.hide_log s, List.count_append]
    have h1 : List.count Effect.onHideCb
        [Effect.classRemove "block", Effect.classAdd "hidden",
         Effect.popperSetListeners false, Effect.removeClickOutside s.current,
         Effect.onHideCb] = 1 := rfl
    rw [h1]

/-- Claim C10, theorem instantiated at the initial (hidden) state. -/
theorem C10_hide_unguarded_witness :
    (Dropdown.hide init).visible = false :=
  (C10_hide_unguarded init rfl).1
